import Mathlib

/-!
Shallow embedding of the synthesizer core in src/Sound Synthesizer/Core.h
(namespace synth): the oscillator, the pitch scale, the ADSR envelope, the
six instruments' sound functions, and the step sequencer.

Modelling choices:
* FTYPE (double) times and amplitudes are modelled as exact rationals; in
  every scenario the claims exercise, the double computations are dyadic
  and exact.  Transcendental signal values (sin, pi, arcsin) force the
  sample outputs into the reals.
* Rational division is total in Lean (x / 0 = 0), so the plain rational
  model of the envelope is faithful only when the segment durations that
  appear as divisors are nonzero.  A small IEEE-754-style value type F
  (finite rational, signed infinities, NaN) is used to settle the
  division-by-zero behaviour exactly where it matters.
* The PI constant and the rand() generator come from the repository's
  Noise.h header, which is not under src/.  PI is modelled as the real pi
  (the spec's formulas use 2*pi*frequency*time), and each rand() draw is
  modelled as an explicit oracle argument rnd, standing for the value
  rand()/RAND_MAX in [0,1].
-/

namespace synth

/-- A note (synth::note).  The instrument pointer is an optional reference
to an abstract instrument value (none models nullptr); the source default
constructor gives id 0, on 0, off 0, inactive, null channel.  The source
field named on is called onTime here because on is a Lean keyword. -/
structure Note (α : Type) where
  id : ℤ
  onTime : ℚ
  off : ℚ
  active : Bool
  channel : Option α
deriving DecidableEq

/-- The five ADSR parameters of synth::envelope_adsr, as exact rationals. -/
structure envelope_adsr where
  dAttackTime : ℚ
  dDecayTime : ℚ
  dSustainAmplitude : ℚ
  dReleaseTime : ℚ
  dStartAmplitude : ℚ
deriving DecidableEq

/-- The default envelope_adsr constructor values (Core.h lines 119-126). -/
def envDefault : envelope_adsr := ⟨1/10, 1/10, 1, 1/5, 1⟩

/-- The shared attack/decay/sustain computation of envelope_adsr::amplitude
(Core.h lines 137-144 and, verbatim again, 150-157).  The source assigns
dAmplitude under three sequential if statements starting from 0, so the
last condition that holds wins; the nested ifs below give the later
conditions priority, which is the same semantics. -/
def envelope_adsr.attackDecayValue (e : envelope_adsr) (dLifeTime : ℚ) : ℚ :=
  if e.dAttackTime + e.dDecayTime < dLifeTime then e.dSustainAmplitude
  else if e.dAttackTime < dLifeTime ∧ dLifeTime ≤ e.dAttackTime + e.dDecayTime then
    ((dLifeTime - e.dAttackTime) / e.dDecayTime) * (e.dSustainAmplitude - e.dStartAmplitude)
      + e.dStartAmplitude
  else if dLifeTime ≤ e.dAttackTime then
    (dLifeTime / e.dAttackTime) * e.dStartAmplitude
  else 0

/-- The value of dAmplitude just before the final snap in
envelope_adsr::amplitude (Core.h lines 133-160): the note-on branch runs
the attack/decay formula on time - timeOn, the note-off branch recomputes
the amplitude reached at release time (timeOff - timeOn) and ramps it
linearly to 0 over dReleaseTime. -/
def envelope_adsr.rawAmplitude (e : envelope_adsr) (dTime dTimeOn dTimeOff : ℚ) : ℚ :=
  if dTimeOff < dTimeOn then
    e.attackDecayValue (dTime - dTimeOn)
  else
    let dReleaseAmplitude := e.attackDecayValue (dTimeOff - dTimeOn)
    ((dTime - dTimeOff) / e.dReleaseTime) * (0 - dReleaseAmplitude) + dReleaseAmplitude

/-- The final guard of envelope_adsr::amplitude (Core.h lines 162-164):
any computed amplitude at most 0.01 is snapped to exactly 0. -/
def snapAmplitude (dAmplitude : ℚ) : ℚ :=
  if dAmplitude ≤ 1/100 then 0 else dAmplitude

/-- synth::envelope_adsr::amplitude (Core.h lines 128-167), rational model.
Faithful to the double computation whenever the divisors dAttackTime,
dDecayTime, dReleaseTime that are actually reached are nonzero; the F
model below settles the zero-divisor cases. -/
def envelope_adsr.amplitude (e : envelope_adsr) (dTime dTimeOn dTimeOff : ℚ) : ℚ :=
  snapAmplitude (e.rawAmplitude dTime dTimeOn dTimeOff)

/-- synth::env (Core.h lines 170-173): forwards to the envelope. -/
def env (dTime : ℚ) (e : envelope_adsr) (dTimeOn dTimeOff : ℚ) : ℚ :=
  e.amplitude dTime dTimeOn dTimeOff

/-- IEEE-754-style double value: finite rational, signed infinities, NaN.
Signed zero is not modelled; the divisors in the source are envelope
constants written as nonnegative literals, so the distinction never
arises on the paths we evaluate. -/
inductive F where
  | fin : ℚ → F
  | pinf : F
  | ninf : F
  | nan : F
deriving DecidableEq

/-- IEEE negation. -/
def F.neg : F → F
  | .fin a => .fin (-a)
  | .pinf => .ninf
  | .ninf => .pinf
  | .nan => .nan

/-- IEEE addition. -/
def F.add : F → F → F
  | .nan, _ => .nan
  | _, .nan => .nan
  | .fin a, .fin b => .fin (a + b)
  | .fin _, .pinf => .pinf
  | .fin _, .ninf => .ninf
  | .pinf, .fin _ => .pinf
  | .ninf, .fin _ => .ninf
  | .pinf, .pinf => .pinf
  | .ninf, .ninf => .ninf
  | .pinf, .ninf => .nan
  | .ninf, .pinf => .nan

/-- IEEE subtraction, as addition of the negation. -/
def F.sub (x y : F) : F := x.add y.neg

/-- IEEE multiplication. -/
def F.mul : F → F → F
  | .nan, _ => .nan
  | _, .nan => .nan
  | .fin a, .fin b => .fin (a * b)
  | .fin a, .pinf => if a = 0 then .nan else if 0 < a then .pinf else .ninf
  | .fin a, .ninf => if a = 0 then .nan else if 0 < a then .ninf else .pinf
  | .pinf, .fin b => if b = 0 then .nan else if 0 < b then .pinf else .ninf
  | .ninf, .fin b => if b = 0 then .nan else if 0 < b then .ninf else .pinf
  | .pinf, .pinf => .pinf
  | .ninf, .ninf => .pinf
  | .pinf, .ninf => .ninf
  | .ninf, .pinf => .ninf

/-- IEEE division: 0/0 is NaN, nonzero/0 is a signed infinity. -/
def F.div : F → F → F
  | .nan, _ => .nan
  | _, .nan => .nan
  | .fin a, .fin b =>
      if b = 0 then (if a = 0 then .nan else if 0 < a then .pinf else .ninf)
      else .fin (a / b)
  | .fin _, .pinf => .fin 0
  | .fin _, .ninf => .fin 0
  | .pinf, .fin b => if b < 0 then .ninf else .pinf
  | .ninf, .fin b => if b < 0 then .pinf else .ninf
  | .pinf, .pinf => .nan
  | .pinf, .ninf => .nan
  | .ninf, .pinf => .nan
  | .ninf, .ninf => .nan

/-- IEEE comparison x <= y; NaN compares false against everything. -/
def F.le : F → F → Bool
  | .nan, _ => false
  | _, .nan => false
  | .fin a, .fin b => decide (a ≤ b)
  | .ninf, _ => true
  | _, .pinf => true
  | .pinf, _ => false
  | .fin _, .ninf => false

/-- IEEE comparison x < y; NaN compares false against everything. -/
def F.lt : F → F → Bool
  | .nan, _ => false
  | _, .nan => false
  | .fin a, .fin b => decide (a < b)
  | .pinf, _ => false
  | _, .ninf => false
  | .ninf, _ => true
  | .fin _, .pinf => true

/-- The attack/decay/sustain chain of envelope_adsr::amplitude over IEEE
values (same sequential-assignment structure as attackDecayValue).  The
envelope parameters are finite doubles and enter as F.fin. -/
def envelope_adsr.attackDecayValueF (e : envelope_adsr) (dLifeTime : F) : F :=
  if (F.fin (e.dAttackTime + e.dDecayTime)).lt dLifeTime then F.fin e.dSustainAmplitude
  else if (F.fin e.dAttackTime).lt dLifeTime
      && dLifeTime.le (F.fin (e.dAttackTime + e.dDecayTime)) then
    (((dLifeTime.sub (F.fin e.dAttackTime)).div (F.fin e.dDecayTime)).mul
        (F.fin (e.dSustainAmplitude - e.dStartAmplitude))).add (F.fin e.dStartAmplitude)
  else if dLifeTime.le (F.fin e.dAttackTime) then
    (dLifeTime.div (F.fin e.dAttackTime)).mul (F.fin e.dStartAmplitude)
  else F.fin 0

/-- synth::envelope_adsr::amplitude over IEEE values: exactly the source
computation of Core.h lines 128-167, including the division by the raw
dAttackTime / dReleaseTime parameters and the final snap guard, whose
comparison is false on NaN. -/
def envelope_adsr.amplitudeF (e : envelope_adsr) (dTime dTimeOn dTimeOff : F) : F :=
  let dAmplitude :=
    if dTimeOff.lt dTimeOn then
      e.attackDecayValueF (dTime.sub dTimeOn)
    else
      let dReleaseAmplitude := e.attackDecayValueF (dTimeOff.sub dTimeOn)
      (((dTime.sub dTimeOff).div (F.fin e.dReleaseTime)).mul
          ((F.fin 0).sub dReleaseAmplitude)).add dReleaseAmplitude
  if dAmplitude.le (F.fin (1/100)) then F.fin 0 else dAmplitude

/-- The source literal for 2^(1/12) in synth::scale (Core.h line 98),
read as an exact rational. -/
def scaleBase : ℚ := 1.0594630943592952645618252949463

/-- synth::scale (Core.h lines 93-100): 8 * scaleBase ^ id.  The only
implemented tuning (SCALE_DEFAULT) is also the default of the switch. -/
def scale (nNoteID : ℤ) : ℚ := 8 * scaleBase ^ nNoteID

/-- Modelled from the spec: the ideal pitch mapper freq = 8 * r^id with
r = 2^(1/12) exactly (spec section 4.2), for comparison with the source
definition scale, whose base is the truncated literal scaleBase. -/
noncomputable def scaleIdeal (nNoteID : ℤ) : ℝ := 8 * ((2 : ℝ) ^ ((1 : ℝ) / 12)) ^ nNoteID

/-- synth::w (Core.h lines 12-15): frequency to angular velocity.  PI is
from the missing Noise.h header, modelled as the real pi. -/
noncomputable def w (dHertz : ℝ) : ℝ := dHertz * 2 * Real.pi

/-- The oscillator kind enum synth::TYPE (Core.h lines 42-49). -/
inductive TYPE where
  | OSC_SINE
  | OSC_SQUARE
  | OSC_TRIANGLE
  | OSC_SAW_ANA
  | OSC_SAW_DIG
  | OSC_NOISE
deriving DecidableEq

/-- C truncation toward zero, used by fmod. -/
noncomputable def truncR (x : ℝ) : ℤ := if 0 ≤ x then ⌊x⌋ else ⌈x⌉

/-- C fmod(x, y) = x - trunc(x/y) * y (for finite arguments, y nonzero;
the claims only use positive y). -/
noncomputable def fmodR (x y : ℝ) : ℝ := x - y * (truncR (x / y) : ℝ)

/-- synth::osc (Core.h lines 52-86).  The source default arguments are
dLFOHertz = 0, dLFOAmplitude = 0, dCustom = 50; callers below always pass
them explicitly.  rnd is the oracle for the rand()/RAND_MAX draw used by
OSC_NOISE; the analog-saw loop for (n = 1; n < dCustom; n++) contributes
one harmonic per integer n in [1, dCustom). -/
noncomputable def osc (rnd : ℝ) (dTime dHertz : ℝ) (t : TYPE)
    (dLFOHertz dLFOAmplitude dCustom : ℝ) : ℝ :=
  let dFreq := w dHertz * dTime + dLFOAmplitude * dHertz * Real.sin (w dLFOHertz * dTime)
  match t with
  | .OSC_SINE => Real.sin dFreq
  | .OSC_SQUARE => if 0 < Real.sin dFreq then 1 else -1
  | .OSC_TRIANGLE => Real.arcsin (Real.sin dFreq) * (2 / Real.pi)
  | .OSC_SAW_ANA =>
      (Finset.range (⌈dCustom⌉ - 1).toNat).sum
        (fun k => Real.sin ((k + 1 : ℕ) * dFreq) / (k + 1 : ℕ)) * (2 / Real.pi)
  | .OSC_SAW_DIG => (2 / Real.pi) * (dHertz * Real.pi * fmodR dTime (1 / dHertz) - Real.pi / 2)
  | .OSC_NOISE => 2 * rnd - 1

/-- Bell envelope, volume and lifetime from the instrument_bell
constructor (Core.h lines 187-196); dStartAmplitude keeps its base-class
default 1. -/
def instrument_bell.env : envelope_adsr := ⟨1/100, 1, 0, 1, 1⟩

/-- Bell volume. -/
def instrument_bell.dVolume : ℚ := 1

/-- Bell fMaxLifeTime (set by the constructor but never consulted by
instrument_bell::sound). -/
def instrument_bell.fMaxLifeTime : ℚ := 3

/-- instrument_bell::sound (Core.h lines 198-209): envelope-gated additive
mix of three sines; sets bNoteFinished when the envelope amplitude is at
most 0. -/
noncomputable def instrument_bell.sound {α : Type} (dTime : ℚ) (n : Note α)
    (bNoteFinished : Bool) : ℝ × Bool :=
  let dAmplitude := synth.env dTime instrument_bell.env n.onTime n.off
  let bOut := if dAmplitude ≤ 0 then true else bNoteFinished
  let dSound : ℝ :=
      1 * osc 0 ((dTime - n.onTime : ℚ) : ℝ) ((scale (n.id + 12) : ℚ) : ℝ) .OSC_SINE 5 (1/1000) 50
      + (1/2) * osc 0 ((dTime - n.onTime : ℚ) : ℝ) ((scale (n.id + 24) : ℚ) : ℝ) .OSC_SINE 0 0 50
      + (1/4) * osc 0 ((dTime - n.onTime : ℚ) : ℝ) ((scale (n.id + 36) : ℚ) : ℝ) .OSC_SINE 0 0 50
  (((dAmplitude : ℝ)) * dSound * ((instrument_bell.dVolume : ℚ) : ℝ), bOut)

/-- 8-bit bell envelope (Core.h lines 215-223). -/
def instrument_bell8.env : envelope_adsr := ⟨1/100, 1/2, 4/5, 1, 1⟩

/-- 8-bit bell volume. -/
def instrument_bell8.dVolume : ℚ := 1

/-- instrument_bell8::sound (Core.h lines 226-237). -/
noncomputable def instrument_bell8.sound {α : Type} (dTime : ℚ) (n : Note α)
    (bNoteFinished : Bool) : ℝ × Bool :=
  let dAmplitude := synth.env dTime instrument_bell8.env n.onTime n.off
  let bOut := if dAmplitude ≤ 0 then true else bNoteFinished
  let dSound : ℝ :=
      1 * osc 0 ((dTime - n.onTime : ℚ) : ℝ) ((scale n.id : ℚ) : ℝ) .OSC_SQUARE 5 (1/1000) 50
      + (1/2) * osc 0 ((dTime - n.onTime : ℚ) : ℝ) ((scale (n.id + 12) : ℚ) : ℝ) .OSC_SINE 0 0 50
      + (1/4) * osc 0 ((dTime - n.onTime : ℚ) : ℝ) ((scale (n.id + 24) : ℚ) : ℝ) .OSC_SINE 0 0 50
  (((dAmplitude : ℝ)) * dSound * ((instrument_bell8.dVolume : ℚ) : ℝ), bOut)

/-- Harmonica envelope (Core.h lines 243-252): zero attack time. -/
def instrument_harmonica.env : envelope_adsr := ⟨0, 1, 19/20, 1/10, 1⟩

/-- Harmonica volume. -/
def instrument_harmonica.dVolume : ℚ := 3/10

/-- instrument_harmonica::sound (Core.h lines 254-266).  The first term
deliberately evaluates the analog saw at the negated elapsed time
(n.onTime - dTime); rnd is the oracle for the single noise draw. -/
noncomputable def instrument_harmonica.sound {α : Type} (rnd : ℝ) (dTime : ℚ) (n : Note α)
    (bNoteFinished : Bool) : ℝ × Bool :=
  let dAmplitude := synth.env dTime instrument_harmonica.env n.onTime n.off
  let bOut := if dAmplitude ≤ 0 then true else bNoteFinished
  let dSound : ℝ :=
      1 * osc 0 ((n.onTime - dTime : ℚ) : ℝ) ((scale (n.id - 12) : ℚ) : ℝ) .OSC_SAW_ANA 5 (1/1000) 100
      + 1 * osc 0 ((dTime - n.onTime : ℚ) : ℝ) ((scale n.id : ℚ) : ℝ) .OSC_SQUARE 5 (1/1000) 50
      + (1/2) * osc 0 ((dTime - n.onTime : ℚ) : ℝ) ((scale (n.id + 12) : ℚ) : ℝ) .OSC_SQUARE 0 0 50
      + (1/20) * osc rnd ((dTime - n.onTime : ℚ) : ℝ) ((scale (n.id + 24) : ℚ) : ℝ) .OSC_NOISE 0 0 50
  (((dAmplitude : ℝ)) * dSound * ((instrument_harmonica.dVolume : ℚ) : ℝ), bOut)

/-- Drum kick envelope (Core.h lines 273-282): zero release time. -/
def instrument_drumkick.env : envelope_adsr := ⟨1/100, 3/20, 0, 0, 1⟩

/-- Drum kick maximum lifetime. -/
def instrument_drumkick.fMaxLifeTime : ℚ := 3/2

/-- Drum kick volume. -/
def instrument_drumkick.dVolume : ℚ := 1

/-- instrument_drumkick::sound (Core.h lines 284-294): timeout-driven
termination, independent of the envelope and the sample. -/
noncomputable def instrument_drumkick.sound {α : Type} (rnd : ℝ) (dTime : ℚ) (n : Note α)
    (bNoteFinished : Bool) : ℝ × Bool :=
  let dAmplitude := synth.env dTime instrument_drumkick.env n.onTime n.off
  let bOut :=
    if 0 < instrument_drumkick.fMaxLifeTime ∧ instrument_drumkick.fMaxLifeTime ≤ dTime - n.onTime
    then true else bNoteFinished
  let dSound : ℝ :=
      (99/100) * osc 0 ((dTime - n.onTime : ℚ) : ℝ) ((scale (n.id - 36) : ℚ) : ℝ) .OSC_SINE 1 1 50
      + (1/100) * osc rnd ((dTime - n.onTime : ℚ) : ℝ) 0 .OSC_NOISE 0 0 50
  (((dAmplitude : ℝ)) * dSound * ((instrument_drumkick.dVolume : ℚ) : ℝ), bOut)

/-- Drum snare envelope (Core.h lines 300-309): zero attack time and zero
release time. -/
def instrument_drumsnare.env : envelope_adsr := ⟨0, 1/5, 0, 0, 1⟩

/-- Drum snare maximum lifetime. -/
def instrument_drumsnare.fMaxLifeTime : ℚ := 1

/-- Drum snare volume. -/
def instrument_drumsnare.dVolume : ℚ := 1

/-- instrument_drumsnare::sound (Core.h lines 311-321). -/
noncomputable def instrument_drumsnare.sound {α : Type} (rnd : ℝ) (dTime : ℚ) (n : Note α)
    (bNoteFinished : Bool) : ℝ × Bool :=
  let dAmplitude := synth.env dTime instrument_drumsnare.env n.onTime n.off
  let bOut :=
    if 0 < instrument_drumsnare.fMaxLifeTime ∧ instrument_drumsnare.fMaxLifeTime ≤ dTime - n.onTime
    then true else bNoteFinished
  let dSound : ℝ :=
      (1/2) * osc 0 ((dTime - n.onTime : ℚ) : ℝ) ((scale (n.id - 24) : ℚ) : ℝ) .OSC_SINE (1/2) 1 50
      + (1/2) * osc rnd ((dTime - n.onTime : ℚ) : ℝ) 0 .OSC_NOISE 0 0 50
  (((dAmplitude : ℝ)) * dSound * ((instrument_drumsnare.dVolume : ℚ) : ℝ), bOut)

/-- Drum hi-hat envelope (Core.h lines 328-337). -/
def instrument_drumhihat.env : envelope_adsr := ⟨1/100, 1/20, 0, 0, 1⟩

/-- Drum hi-hat maximum lifetime. -/
def instrument_drumhihat.fMaxLifeTime : ℚ := 1

/-- Drum hi-hat volume. -/
def instrument_drumhihat.dVolume : ℚ := 1/2

/-- instrument_drumhihat::sound (Core.h lines 339-349). -/
noncomputable def instrument_drumhihat.sound {α : Type} (rnd : ℝ) (dTime : ℚ) (n : Note α)
    (bNoteFinished : Bool) : ℝ × Bool :=
  let dAmplitude := synth.env dTime instrument_drumhihat.env n.onTime n.off
  let bOut :=
    if 0 < instrument_drumhihat.fMaxLifeTime ∧ instrument_drumhihat.fMaxLifeTime ≤ dTime - n.onTime
    then true else bNoteFinished
  let dSound : ℝ :=
      (1/10) * osc 0 ((dTime - n.onTime : ℚ) : ℝ) ((scale (n.id - 12) : ℚ) : ℝ) .OSC_SQUARE (3/2) 1 50
      + (9/10) * osc rnd ((dTime - n.onTime : ℚ) : ℝ) 0 .OSC_NOISE 0 0 50
  (((dAmplitude : ℝ)) * dSound * ((instrument_drumhihat.dVolume : ℚ) : ℝ), bOut)

/-- sequencer::channel (Core.h lines 357-361): an instrument reference and
a pattern string, modelled as a list of characters. -/
structure channel (α : Type) where
  instrument : α
  sBeat : List Char
deriving DecidableEq

/-- synth::sequencer state (Core.h lines 354-432).  nCurrentBeat is a C int
that starts at 0 and is only incremented or reset to 0, so it is modelled
as a natural number. -/
structure sequencer (α : Type) where
  nBeats : ℕ
  nSubBeats : ℕ
  fTempo : ℚ
  fBeatTime : ℚ
  fAccumulate : ℚ
  nCurrentBeat : ℕ
  nTotalBeats : ℕ
  vecChannel : List (channel α)
  vecNotes : List (Note α)
deriving DecidableEq

/-- The sequencer constructor (Core.h lines 364-373).  The source defaults
are tempo 120, beats 4, subbeats 4; fBeatTime = (60 / tempo) / subbeats is
computed in float, which is exact for the dyadic values the claims use. -/
def sequencer.init (α : Type) (tempo : ℚ) (beats subbeats : ℕ) : sequencer α :=
  { nBeats := beats
    nSubBeats := subbeats
    fTempo := tempo
    fBeatTime := (60 / tempo) / subbeats
    fAccumulate := 0
    nCurrentBeat := 0
    nTotalBeats := subbeats * beats
    vecChannel := []
    vecNotes := [] }

/-- One body execution plus re-test of the while loop of sequencer::Update
(Core.h lines 381-402), with explicit fuel.  The Bool component records
whether any pattern access v.sBeat[nCurrentBeat] was out of bounds (the
source indexes the wstring unchecked; the model reads such an access as
no trigger and raises the flag).  The fuel only bounds the iteration
count; each step re-checks the source's loop condition. -/
def sequencer.updateLoop {α : Type} : ℕ → sequencer α → Bool → sequencer α × Bool
  | 0, s, oob => (s, oob)
  | fuel + 1, s, oob =>
    if s.fBeatTime ≤ s.fAccumulate then
      let b1 := s.nCurrentBeat + 1
      let b2 := if s.nTotalBeats ≤ b1 then 0 else b1
      let newNotes := s.vecChannel.filterMap (fun v =>
        if v.sBeat.get? b2 = some 'X' then
          some (⟨64, 0, 0, true, some v.instrument⟩ : Note α)
        else none)
      let oob2 := oob || s.vecChannel.any (fun v => decide (v.sBeat.length ≤ b2))
      sequencer.updateLoop fuel
        { s with fAccumulate := s.fAccumulate - s.fBeatTime
                 nCurrentBeat := b2
                 vecNotes := s.vecNotes ++ newNotes } oob2
    else (s, oob)

/-- Number of iterations the source while loop performs when fBeatTime is
positive: the floor of fAccumulate / fBeatTime (0 when negative).  For
nonpositive fBeatTime the source loop would not terminate once entered;
the claims never reach that configuration. -/
def sequencer.updateFuel (acc bt : ℚ) : ℕ :=
  if bt ≤ 0 then 0 else (Rat.floor (acc / bt)).toNat

/-- sequencer::Update (Core.h lines 376-407) together with the
out-of-bounds flag: clear vecNotes, accumulate the elapsed time, drain
whole steps, collecting a note for every channel whose pattern marks the
step reached. -/
def sequencer.UpdateFull {α : Type} (s : sequencer α) (fElapsedTime : ℚ) :
    sequencer α × Bool :=
  let s0 := { s with vecNotes := ([] : List (Note α))
                     fAccumulate := s.fAccumulate + fElapsedTime }
  sequencer.updateLoop (sequencer.updateFuel s0.fAccumulate s0.fBeatTime) s0 false

/-- The state after sequencer::Update. -/
def sequencer.Update {α : Type} (s : sequencer α) (fElapsedTime : ℚ) : sequencer α :=
  (s.UpdateFull fElapsedTime).1

/-- Whether sequencer::Update read a pattern index out of bounds. -/
def sequencer.UpdateOOB {α : Type} (s : sequencer α) (fElapsedTime : ℚ) : Bool :=
  (s.UpdateFull fElapsedTime).2

/-- The int returned by sequencer::Update: vecNotes.size(). -/
def sequencer.UpdateCount {α : Type} (s : sequencer α) (fElapsedTime : ℚ) : ℕ :=
  (s.Update fElapsedTime).vecNotes.length

/-- sequencer::AddInstrument (Core.h lines 409-414): pushes a channel for
the instrument whose pattern is the default-constructed empty wstring; no
validation of any kind is performed. -/
def sequencer.AddInstrument {α : Type} (s : sequencer α) (inst : α) : sequencer α :=
  { s with vecChannel := s.vecChannel ++ [{ instrument := inst, sBeat := [] }] }

/-- The C1 scenario: sequencer(120, 4, 4) with one registered channel whose
pattern is the 16-character string with the trigger marker at position 0
(patterns are assigned directly to the public vecChannel field by client
code, as the repository's driver does). -/
def seqC1 : sequencer Unit :=
  { sequencer.init Unit 120 4 4 with
      vecChannel := [{ instrument := (), sBeat := "X...............".toList }] }

/-- One Update(0.125) call, for iterating the C1 scenario. -/
def stepC1 (s : sequencer Unit) : sequencer Unit := s.Update (1/8)

/-- The C4 failing scenario: sequencer(120, 4, 4) with a channel registered
through AddInstrument, whose pattern is the empty string (length 0, not
beats*subbeats = 16). -/
def seqC4 : sequencer Unit := (sequencer.init Unit 120 4 4).AddInstrument ()

/-- A freshly triggered note with the placeholder id, as the C1 channel
carries it. -/
def noteTriggered : Note Unit := ⟨64, 0, 0, true, some ()⟩

/-- A note that is sounding and has never been released in the source's
encoding (on > off strictly). -/
def noteHeld : Note Unit := ⟨64, 0, -1, true, none⟩

/-- The fields e.id = 64, active, on = off = 0, instrument reference of a
registered channel holding a trigger marker: the shape of every note
descriptor sequencer::Update emits. -/
def goodNote {α : Type} (chs : List (channel α)) (n : Note α) : Prop :=
  n.id = 64 ∧ n.active = true ∧ n.onTime = 0 ∧ n.off = 0 ∧
    ∃ v ∈ chs, (∃ b, v.sBeat.get? b = some 'X') ∧ n.channel = some v.instrument

/-- A freshly created note as the default note constructor plus activation
leaves it: onTime = offTime = 0 (never released in the claims' intended
reading, but the source phase test onTime > offTime reads it as off). -/
def noteFresh : Note Unit := ⟨64, 0, 0, true, none⟩

/-- A valid ADSR parameter set (all times positive, amplitudes in [0,1])
on which the amplitude contract of C5 fails: attack 1, decay 1, sustain 1,
release 1, start 1. -/
def envC5 : envelope_adsr := ⟨1, 1, 1, 1, 1⟩

/-- The exact factor scale applies per octave: scaleBase to the 12th. -/
def octaveRatio : ℚ := scaleBase ^ (12 : ℕ)

end synth

namespace synth

attribute [local semireducible] Rat.add Rat.sub Rat.mul Rat.inv

/-- The final guard of the envelope returns 0 or a value strictly above
the snap threshold 0.01. -/
theorem snapAmplitude_eq_zero_or_gt (x : ℚ) :
    snapAmplitude x = 0 ∨ 1/100 < snapAmplitude x := by
  unfold snapAmplitude
  by_cases h : x ≤ 1/100
  · exact Or.inl (if_pos h)
  · rw [if_neg h]
    exact Or.inr (lt_of_not_le h)

/-- The snapped amplitude is never negative. -/
theorem snapAmplitude_nonneg (x : ℚ) : 0 ≤ snapAmplitude x := by
  rcases snapAmplitude_eq_zero_or_gt x with h | h
  · simp [h]
  · linarith

/-- With positive attack and decay times, the attack/decay chain starts
at exactly 0. -/
theorem attackDecayValue_zero (e : envelope_adsr) (ha : 0 < e.dAttackTime)
    (hd : 0 < e.dDecayTime) : e.attackDecayValue 0 = 0 := by
  unfold envelope_adsr.attackDecayValue
  rw [if_neg (not_lt.mpr (by positivity)),
    if_neg (fun h => absurd h.1 (not_lt.mpr ha.le)),
    if_pos ha.le]
  simp

/-- With positive attack and decay times, the envelope amplitude sampled
exactly at the on time is 0 whenever the off time is not later. -/
theorem amplitude_at_on_eq_zero (e : envelope_adsr) (ha : 0 < e.dAttackTime)
    (hd : 0 < e.dDecayTime) (dTimeOn dTimeOff : ℚ) (hoff : dTimeOff ≤ dTimeOn) :
    e.amplitude dTimeOn dTimeOn dTimeOff = 0 := by
  unfold envelope_adsr.amplitude envelope_adsr.rawAmplitude
  rcases lt_or_eq_of_le hoff with h | h
  · rw [if_pos h, sub_self, attackDecayValue_zero e ha hd]
    simp [snapAmplitude]
  · subst h
    rw [if_neg (lt_irrefl dTimeOff)]
    simp only [sub_self, attackDecayValue_zero e ha hd]
    norm_num [snapAmplitude]

/-- C1: the claim's first assertion fails on the code.  In the scenario
(tempo 120, beats 4, subBeats 4, one channel with the trigger marker at
pattern position 0), the first Update(0.125) advances currentStep to 1
before reading the pattern, position 1 is a rest, and the call returns 0
triggered notes, not 1. -/
theorem C1_first_update_triggers_nothing : seqC1.UpdateCount (1/8) = 0 := by decide

set_option maxRecDepth 40000 in
/-- C1 (amended): the first Update(0.125) of the scenario returns 0 notes;
pattern position 0 first triggers on the 16th call: after 15 calls
currentStep is 15, and the 16th call wraps currentStep back to 0 and
emits exactly the one note of pattern position 0. -/
theorem C1_amended_sixteen_updates_wrap_and_trigger :
    seqC1.UpdateCount (1/8) = 0 ∧
    (stepC1^[15] seqC1).nCurrentBeat = 15 ∧
    (stepC1^[16] seqC1).nCurrentBeat = 0 ∧
    (stepC1^[16] seqC1).vecNotes = [noteTriggered] := by decide

/-- C2: the code does not special-case zero-length envelope segments.  For
the Drum Snare envelope (attackTime = 0), amplitude(1, 1, 0) is in the
note-on branch with lifetime 0, computes (0 / attackTime) = 0/0 = NaN
under IEEE double semantics, the NaN fails the final snap comparison
(NaN <= 0.01 is false), and NaN is returned into the audio signal. -/
theorem C2_zero_attack_returns_nan :
    instrument_drumsnare.env.amplitudeF (F.fin 1) (F.fin 1) (F.fin 0) = F.nan := by decide

/-- C3: the claim's Bell scenario fails on the code.  A note with
onTime = offTime = 0 is read by the phase test onTime > offTime as
released, the release-branch amplitude at time 0.005 is 0, and
instrument_bell::sound sets noteFinished to true, not false. -/
theorem C3_bell_fresh_note_marked_finished :
    (instrument_bell.sound (1/200) noteFresh false).2 = true := by decide

/-- C3 (amended): for the envelope-driven instruments (Bell, 8-bit Bell,
Harmonica) the finished flag, entering false, is set exactly when the
envelope amplitude is at most 0; but termination does not require a
release: a note with onTime = offTime = 0 is already in the releasing
branch with amplitude 0, so Bell marks it finished at time 0.005, and a
sounding never-released Bell note (onTime > offTime) is marked finished
once the zero-sustain envelope has decayed to the snap threshold, for
example at time 2. -/
theorem C3_amended_finished_iff_amplitude_nonpos :
    (∀ (α : Type) (dTime : ℚ) (n : Note α) (rnd : ℝ),
      ((instrument_bell.sound dTime n false).2 = true ↔
        instrument_bell.env.amplitude dTime n.onTime n.off ≤ 0) ∧
      ((instrument_bell8.sound dTime n false).2 = true ↔
        instrument_bell8.env.amplitude dTime n.onTime n.off ≤ 0) ∧
      ((instrument_harmonica.sound rnd dTime n false).2 = true ↔
        instrument_harmonica.env.amplitude dTime n.onTime n.off ≤ 0)) ∧
    (instrument_bell.sound (1/200) noteFresh false).2 = true ∧
    (instrument_bell.sound 2 noteHeld false).2 = true := by
  refine ⟨fun α dTime n rnd => ⟨?_, ?_, ?_⟩, by decide, by decide⟩
  · by_cases h : instrument_bell.env.amplitude dTime n.onTime n.off ≤ 0 <;>
      simp [instrument_bell.sound, synth.env, h]
  · by_cases h : instrument_bell8.env.amplitude dTime n.onTime n.off ≤ 0 <;>
      simp [instrument_bell8.sound, synth.env, h]
  · by_cases h : instrument_harmonica.env.amplitude dTime n.onTime n.off ≤ 0 <;>
      simp [instrument_harmonica.sound, synth.env, h]

/-- C4: the registration path performs no validation and playback does
read out of bounds: AddInstrument on sequencer(120, 4, 4) registers a
channel whose pattern is the default-constructed empty string (length 0,
not beats*subBeats = 16) without rejection or padding, and the next
Update(0.125) advances to step 1 and reads pattern index 1 of that empty
pattern, out of bounds. -/
theorem C4_update_reads_out_of_bounds : seqC4.UpdateOOB (1/8) = true := by decide

/-- C5: the [0,1] range claim fails on the code.  With the valid
parameters attack 1, decay 1, sustain 1, release 1, start 1,
amplitude(0, 0, 1) takes the release branch at a time before offTime,
extrapolates the release ramp upward and returns 2, outside [0,1]. -/
theorem C5_amplitude_exceeds_one :
    envC5.amplitude 0 0 1 = 2 ∧ ¬ envC5.amplitude 0 0 1 ≤ 1 := by decide

/-- C5 (amended): for ADSR parameters with strictly positive attack,
decay and release times and amplitudes in [0,1], amplitude sampled at the
on time is exactly 0 whenever offTime is at most onTime, and amplitude
never returns a negative value; the upper bound 1 of the original claim
does not hold for all times. -/
theorem C5_amended_zero_at_attack_start_and_nonneg (e : envelope_adsr)
    (ha : 0 < e.dAttackTime) (hd : 0 < e.dDecayTime) (hr : 0 < e.dReleaseTime)
    (hs1 : 0 ≤ e.dStartAmplitude) (hs2 : e.dStartAmplitude ≤ 1)
    (hs3 : 0 ≤ e.dSustainAmplitude) (hs4 : e.dSustainAmplitude ≤ 1)
    (dTime dTimeOn dTimeOff : ℚ) :
    (dTimeOff ≤ dTimeOn → e.amplitude dTimeOn dTimeOn dTimeOff = 0) ∧
    0 ≤ e.amplitude dTime dTimeOn dTimeOff :=
  ⟨fun hoff => amplitude_at_on_eq_zero e ha hd dTimeOn dTimeOff hoff,
   snapAmplitude_nonneg _⟩

/-- C5 witness: the amended statement applied to the default envelope at
onTime 0, offTime -1, time 5. -/
theorem C5_amended_zero_at_attack_start_and_nonneg_witness :
    (0 < envDefault.dAttackTime ∧ 0 < envDefault.dDecayTime ∧
      0 < envDefault.dReleaseTime ∧ 0 ≤ envDefault.dStartAmplitude ∧
      envDefault.dStartAmplitude ≤ 1 ∧ 0 ≤ envDefault.dSustainAmplitude ∧
      envDefault.dSustainAmplitude ≤ 1) ∧
    (((-1 : ℚ) ≤ 0 → envDefault.amplitude 0 0 (-1) = 0) ∧
      0 ≤ envDefault.amplitude 5 0 (-1)) :=
  ⟨by decide,
   C5_amended_zero_at_attack_start_and_nonneg envDefault (by decide) (by decide)
     (by decide) (by decide) (by decide) (by decide) (by decide) 5 0 (-1)⟩

/-- C6: scale(0) = 8 exactly; every octave step multiplies the frequency
by octaveRatio = scaleBase^12, which lies within 10^-13 of 2 (the
floating tolerance of the claim); and for the spec's ideal base
r = 2^(1/12) the doubling is exact. -/
theorem C6_scale_octave_doubling :
    scale 0 = 8 ∧
    (∀ nNoteID : ℤ, scale (nNoteID + 12) = scale nNoteID * octaveRatio) ∧
    (2 - 1/10^13 < octaveRatio ∧ octaveRatio < 2) ∧
    (∀ nNoteID : ℤ, scaleIdeal (nNoteID + 12) = 2 * scaleIdeal nNoteID) := by
  have hb : scaleBase ≠ 0 := by norm_num [scaleBase]
  have h12 : scaleBase ^ (12 : ℤ) = octaveRatio := by norm_num [scaleBase, octaveRatio]
  refine ⟨by simp [scale], fun id => ?_,
    ⟨by norm_num [octaveRatio, scaleBase], by norm_num [octaveRatio, scaleBase]⟩, fun id => ?_⟩
  · rw [scale, scale, zpow_add₀ hb, h12]
    ring
  · have hr0 : (0:ℝ) < (2:ℝ) ^ ((1:ℝ)/12) := Real.rpow_pos_of_pos (by norm_num) _
    rw [scaleIdeal, scaleIdeal, zpow_add₀ (ne_of_gt hr0)]
    have hpow : ((2:ℝ) ^ ((1:ℝ)/12)) ^ (12 : ℤ) = 2 := by
      rw [show (12 : ℤ) = ((12 : ℕ) : ℤ) by norm_num, zpow_natCast,
        ← Real.rpow_natCast ((2:ℝ) ^ ((1:ℝ)/12)) 12,
        ← Real.rpow_mul (by norm_num : (0:ℝ) ≤ 2)]
      norm_num
    rw [hpow]
    ring

/-- C7: the percussive instruments are timeout-driven: whenever
time - onTime reaches the instrument's fMaxLifeTime (kick 1.5, snare 1,
hi-hat 1), sound sets noteFinished to true, independent of the envelope
state, the noise draw and the incoming flag value. -/
theorem C7_drum_timeout_sets_finished (α : Type) (rnd : ℝ) (dTime : ℚ) (n : Note α)
    (bNoteFinished : Bool) :
    (instrument_drumkick.fMaxLifeTime ≤ dTime - n.onTime →
      (instrument_drumkick.sound rnd dTime n bNoteFinished).2 = true) ∧
    (instrument_drumsnare.fMaxLifeTime ≤ dTime - n.onTime →
      (instrument_drumsnare.sound rnd dTime n bNoteFinished).2 = true) ∧
    (instrument_drumhihat.fMaxLifeTime ≤ dTime - n.onTime →
      (instrument_drumhihat.sound rnd dTime n bNoteFinished).2 = true) := by
  refine ⟨fun h => ?_, fun h => ?_, fun h => ?_⟩
  · have hrfl : (instrument_drumkick.sound rnd dTime n bNoteFinished).2 =
        if 0 < instrument_drumkick.fMaxLifeTime ∧
            instrument_drumkick.fMaxLifeTime ≤ dTime - n.onTime
        then true else bNoteFinished := rfl
    rw [hrfl, if_pos ⟨by decide, h⟩]
  · have hrfl : (instrument_drumsnare.sound rnd dTime n bNoteFinished).2 =
        if 0 < instrument_drumsnare.fMaxLifeTime ∧
            instrument_drumsnare.fMaxLifeTime ≤ dTime - n.onTime
        then true else bNoteFinished := rfl
    rw [hrfl, if_pos ⟨by decide, h⟩]
  · have hrfl : (instrument_drumhihat.sound rnd dTime n bNoteFinished).2 =
        if 0 < instrument_drumhihat.fMaxLifeTime ∧
            instrument_drumhihat.fMaxLifeTime ≤ dTime - n.onTime
        then true else bNoteFinished := rfl
    rw [hrfl, if_pos ⟨by decide, h⟩]

/-- C7 witness: Drum Kick with onTime 0 at time 1.6 (and snare and hi-hat
at the same time, past their lifetime 1) reports noteFinished = true. -/
theorem C7_drum_timeout_sets_finished_witness :
    (instrument_drumkick.fMaxLifeTime ≤ (16/10 : ℚ) - noteFresh.onTime ∧
      instrument_drumsnare.fMaxLifeTime ≤ (16/10 : ℚ) - noteFresh.onTime ∧
      instrument_drumhihat.fMaxLifeTime ≤ (16/10 : ℚ) - noteFresh.onTime) ∧
    (instrument_drumkick.sound 0 (16/10) noteFresh false).2 = true ∧
    (instrument_drumsnare.sound 0 (16/10) noteFresh false).2 = true ∧
    (instrument_drumhihat.sound 0 (16/10) noteFresh false).2 = true := by
  have h := C7_drum_timeout_sets_finished Unit 0 (16/10) noteFresh false
  exact ⟨⟨by decide, by decide, by decide⟩,
    h.1 (by decide), h.2.1 (by decide), h.2.2 (by decide)⟩

/-- C8: for positive frequency the digital-saw oscillator returns the
closed-form ramp (2/pi) * (f * pi * (t mod 1/f) - pi/2), and its value is
identical under any two settings of the vibrato parameters dLFOHertz and
dLFOAmplitude: the digital saw does not respond to vibrato. -/
theorem C8_sawdig_closed_form_vibrato_independent (rnd dTime dHertz dLFOHertz1
    dLFOAmplitude1 dLFOHertz2 dLFOAmplitude2 dCustom : ℝ) (hf : 0 < dHertz) :
    osc rnd dTime dHertz TYPE.OSC_SAW_DIG dLFOHertz1 dLFOAmplitude1 dCustom
      = (2 / Real.pi) * (dHertz * Real.pi * fmodR dTime (1 / dHertz) - Real.pi / 2) ∧
    osc rnd dTime dHertz TYPE.OSC_SAW_DIG dLFOHertz1 dLFOAmplitude1 dCustom
      = osc rnd dTime dHertz TYPE.OSC_SAW_DIG dLFOHertz2 dLFOAmplitude2 dCustom :=
  ⟨rfl, rfl⟩

/-- C8 witness: the theorem applied at time 0, frequency 1, and two
different vibrato settings. -/
theorem C8_sawdig_closed_form_vibrato_independent_witness :
    (0:ℝ) < 1 ∧
    (osc 0 0 1 TYPE.OSC_SAW_DIG 3 4 50
        = (2 / Real.pi) * (1 * Real.pi * fmodR 0 (1 / 1) - Real.pi / 2) ∧
      osc 0 0 1 TYPE.OSC_SAW_DIG 3 4 50 = osc 0 0 1 TYPE.OSC_SAW_DIG 5 6 50) :=
  ⟨by norm_num,
   C8_sawdig_closed_form_vibrato_independent 0 0 1 3 4 5 6 50 (by norm_num)⟩

/-- C9: for positive attack, decay and release times, every value the
envelope returns is either exactly 0 or strictly greater than 0.01: the
final guard snaps anything at most 0.01 to 0, so no value falls in
(0, 0.01]. -/
theorem C9_amplitude_snap_gap (e : envelope_adsr) (ha : 0 < e.dAttackTime)
    (hd : 0 < e.dDecayTime) (hr : 0 < e.dReleaseTime) (dTime dTimeOn dTimeOff : ℚ) :
    e.amplitude dTime dTimeOn dTimeOff = 0 ∨
      1/100 < e.amplitude dTime dTimeOn dTimeOff :=
  snapAmplitude_eq_zero_or_gt _

/-- C9 witness: the theorem applied to the default envelope in the middle
of its attack. -/
theorem C9_amplitude_snap_gap_witness :
    (0 < envDefault.dAttackTime ∧ 0 < envDefault.dDecayTime ∧
      0 < envDefault.dReleaseTime) ∧
    (envDefault.amplitude (1/20) 0 1 = 0 ∨ 1/100 < envDefault.amplitude (1/20) 0 1) :=
  ⟨by decide, C9_amplitude_snap_gap envDefault (by decide) (by decide) (by decide) (1/20) 0 1⟩

/-- The loop of sequencer::Update never changes the channel list. -/
theorem updateLoop_vecChannel {α : Type} (fuel : ℕ) (s : sequencer α) (oob : Bool) :
    ((sequencer.updateLoop fuel s oob).1).vecChannel = s.vecChannel := by
  induction fuel generalizing s oob with
  | zero => rfl
  | succ k ih =>
      simp only [sequencer.updateLoop]
      split
      · exact ih _ _
      · rfl

/-- Every note in vecNotes after the loop of sequencer::Update either was
there before or has the emitted-note shape goodNote. -/
theorem updateLoop_goodNote {α : Type} (fuel : ℕ) (s : sequencer α) (oob : Bool)
    (h : ∀ n ∈ s.vecNotes, goodNote s.vecChannel n) :
    ∀ n ∈ ((sequencer.updateLoop fuel s oob).1).vecNotes, goodNote s.vecChannel n := by
  induction fuel generalizing s oob with
  | zero => exact h
  | succ k ih =>
      simp only [sequencer.updateLoop]
      split
      · apply ih
        intro n hn
        rcases List.mem_append.mp hn with h1 | h2
        · exact h n h1
        · rcases List.mem_filterMap.mp h2 with ⟨v, hv, hsome⟩
          by_cases hx : v.sBeat.get? (if s.nTotalBeats ≤ s.nCurrentBeat + 1 then 0
              else s.nCurrentBeat + 1) = some 'X'
          · rw [if_pos hx] at hsome
            obtain rfl := Option.some.inj hsome
            exact ⟨rfl, rfl, rfl, rfl, ⟨v, hv, ⟨⟨_, hx⟩, rfl⟩⟩⟩
          · rw [if_neg hx] at hsome
            exact absurd hsome (by simp)
      · exact h

/-- C10: every note descriptor emitted by sequencer::Update has the fixed
placeholder id 64, active = true, onTime = offTime = 0, and carries the
instrument reference of a registered channel whose pattern holds a
trigger marker (the triggering channel); the on/off timestamps are both
zero, so the external voice manager must set onTime before the note can
sound. -/
theorem C10_triggered_note_fields (α : Type) (s : sequencer α) (fElapsedTime : ℚ)
    (n : Note α) (hmem : n ∈ (s.Update fElapsedTime).vecNotes) :
    n.id = 64 ∧ n.active = true ∧ n.onTime = 0 ∧ n.off = 0 ∧
      ∃ v ∈ s.vecChannel, (∃ b, v.sBeat.get? b = some 'X') ∧
        n.channel = some v.instrument := by
  have h := updateLoop_goodNote
    (sequencer.updateFuel (s.fAccumulate + fElapsedTime) s.fBeatTime)
    { s with vecNotes := ([] : List (Note α)), fAccumulate := s.fAccumulate + fElapsedTime }
    false (fun m hm => absurd hm (List.not_mem_nil m))
  exact h n hmem

set_option maxRecDepth 40000 in
/-- C10 witness: the note emitted by the 16th Update(0.125) of the C1
scenario has the emitted-note shape. -/
theorem C10_triggered_note_fields_witness :
    noteTriggered ∈ ((stepC1^[15] seqC1).Update (1/8)).vecNotes ∧
    (noteTriggered.id = 64 ∧ noteTriggered.active = true ∧ noteTriggered.onTime = 0 ∧
      noteTriggered.off = 0 ∧
      ∃ v ∈ (stepC1^[15] seqC1).vecChannel, (∃ b, v.sBeat.get? b = some 'X') ∧
        noteTriggered.channel = some v.instrument) :=
  ⟨by decide,
   C10_triggered_note_fields Unit (stepC1^[15] seqC1) (1/8) noteTriggered (by decide)⟩

end synth
